import Mathlib

/-!
Shallow embedding of `src/transports/quic/src/endpoint.rs` (the QUIC endpoint
driver of this repository) and proofs about its behaviour.

The Protocol Engine (`quinn_proto::Endpoint`), the Connection Multiplexer and
the Datagram Socket are external collaborators: they are modelled
parametrically, as a record of operations over an abstract engine-state type,
and every engine / socket / multiplexer interaction performed by the embedded
code is recorded in an explicit trace so that claims about "what the engine
observes" can be stated.
-/

namespace QuicEndpoint

/-! ## Addresses (`Multiaddr`, `SocketAddr`) -/

/-- Model of an IP address: either four IPv4 octets or eight IPv6 segments. -/
inductive IpAddr where
  | v4 (a b c d : Nat)
  | v6 (s1 s2 s3 s4 s5 s6 s7 s8 : Nat)
deriving DecidableEq, Repr

/-- Model of `IpAddr::is_unspecified`: the all-zero (wildcard) address. -/
def IpAddr.is_unspecified : IpAddr → Bool
  | .v4 a b c d => a == 0 && b == 0 && c == 0 && d == 0
  | .v6 s1 s2 s3 s4 s5 s6 s7 s8 =>
      s1 == 0 && s2 == 0 && s3 == 0 && s4 == 0 &&
      s5 == 0 && s6 == 0 && s7 == 0 && s8 == 0

/-- Model of `async_std::net::SocketAddr`: an IP address and a UDP port. -/
structure SocketAddr where
  ip : IpAddr
  port : Nat
deriving DecidableEq, Repr

/-- Model of one `multiaddr::Protocol` segment.  Only the constructors the
source matches on are distinguished; `tcp` and `other` stand for every segment
kind that falls into the catch-all arm of `multiaddr_to_socketaddr`. -/
inductive Protocol where
  | ip4 (a b c d : Nat)
  | ip6 (s1 s2 s3 s4 s5 s6 s7 s8 : Nat)
  | udp (port : Nat)
  | tcp (port : Nat)
  | quic
  | other (tag : Nat)
deriving DecidableEq, Repr

/-- A `Multiaddr` is its sequence of protocol segments (what `addr.iter()`
yields in the source). -/
abbrev Multiaddr := List Protocol

/-- The final `match (proto1, proto2, proto3)` of `multiaddr_to_socketaddr`
(endpoint.rs lines 392-400): accept exactly (Ip4, Udp, Quic) or
(Ip6, Udp, Quic). -/
def segments_to_socketaddr : Protocol → Protocol → Protocol →
    Except Unit SocketAddr
  | .ip4 a b c d, .udp port, .quic => .ok ⟨.v4 a b c d, port⟩
  | .ip6 s1 s2 s3 s4 s5 s6 s7 s8, .udp port, .quic =>
      .ok ⟨.v6 s1 s2 s3 s4 s5 s6 s7 s8, port⟩
  | _, _, _ => .error ()

/-- Embedding of `multiaddr_to_socketaddr` (endpoint.rs lines 382-401): take
the first three segments, fail if there are fewer or if a fourth exists, then
accept exactly (Ip4, Udp, Quic) or (Ip6, Udp, Quic). -/
def multiaddr_to_socketaddr (addr : Multiaddr) : Except Unit SocketAddr :=
  match addr with
  | proto1 :: proto2 :: proto3 :: rest =>
    if rest.isEmpty then segments_to_socketaddr proto1 proto2 proto3
    else .error ()
  | _ => .error ()

/-! ## Protocol Engine interface (external collaborator, `quinn_proto`) -/

/-- Model of `quinn_proto::ConnectionHandle`. -/
abbrev ConnectionHandle := Nat

/-- Opaque payload of a `quinn_proto::ConnectionEvent`. -/
abbrev ConnectionEvent := Nat

/-- Opaque identifier of a nascent `quinn_proto::Connection` returned by the
engine together with its handle. -/
abbrev Connection := Nat

/-- Opaque outbound packet produced by the engine's `poll_transmit`. -/
abbrev Packet := Nat

/-- Model of `quinn_proto::EndpointEvent`: the only observation the embedded
code makes of it is `is_drained()`; `payload` keeps distinct events distinct.
`EndpointEvent::drained()` is `⟨true, 0⟩`. -/
structure EndpointEvent where
  drained : Bool
  payload : Nat
deriving DecidableEq, Repr

/-- Model of `quinn_proto::EndpointEvent::is_drained`. -/
def EndpointEvent.is_drained (e : EndpointEvent) : Bool := e.drained

/-- Model of `quinn_proto::EndpointEvent::drained()`. -/
def EndpointEvent.drainedEvent : EndpointEvent := ⟨true, 0⟩

/-- Outcome of the engine's datagram demultiplexer
(`quinn_proto::DatagramEvent`): an event for an existing connection or a
brand-new connection. -/
inductive DatagramEvent where
  | connectionEvent (ev : ConnectionEvent)
  | newConnection (conn : Connection)
deriving DecidableEq, Repr

/-- An inbound datagram as read off the socket: sender address and payload. -/
structure Datagram where
  peer : SocketAddr
  bytes : Nat
deriving DecidableEq, Repr

/-- Operations of the external Protocol Engine over an abstract engine-state
type `E` (the `quinn_proto::Endpoint` instance).  Each operation returns the
updated engine state; the embedded code calls exactly these, in the order the
source does. -/
structure EngineOps (E : Type) where
  handleEvent : E → ConnectionHandle → EndpointEvent → E × Option ConnectionEvent
  accept : E → E
  reject_new_connections : E → E
  handleDatagram : E → Datagram → E × Option (ConnectionHandle × DatagramEvent)
  connect : E → SocketAddr → E × Except Unit (ConnectionHandle × Connection)
  poll_transmit : E → E × Option Packet

/-- One observable interaction of the embedded code with its collaborators:
Protocol Engine calls, Multiplexer deliveries and Datagram Socket reads. -/
inductive TraceEvent where
  | engineHandleEvent (handle : ConnectionHandle) (event : EndpointEvent)
  | engineAccept
  | engineReject
  | engineHandleDatagram (d : Datagram)
  | engineConnect (addr : SocketAddr)
  | muxerDeliver (muxId : Nat) (event : Option ConnectionEvent)
  | socketRecv (d : Datagram)
deriving DecidableEq, Repr

/-! ## Connection Registry -/

/-- Model of `Weak<Mutex<Muxer>>`: a weak reference that resolves
(`upgrade()` returns the Multiplexer, identified by `muxId`) exactly when
`alive` is true. -/
structure WeakMuxer where
  muxId : Nat
  alive : Bool
deriving DecidableEq, Repr

/-- The Connection Registry: model of the
`HashMap<ConnectionHandle, Weak<Mutex<Muxer>>>` field `muxers`, as an
association list with unique keys. -/
abbrev Registry := List (ConnectionHandle × WeakMuxer)

/-- Model of `HashMap::get`. -/
def Registry.get? (m : Registry) (h : ConnectionHandle) : Option WeakMuxer :=
  (m.find? (fun p => p.1 == h)).map (·.2)

/-- Model of `HashMap::remove` (drops every binding of the key; keys are
unique, so this is exactly one entry when present). -/
def Registry.remove (m : Registry) (h : ConnectionHandle) : Registry :=
  m.filter (fun p => p.1 != h)

/-- Model of `HashMap::insert`. -/
def Registry.insert (m : Registry) (h : ConnectionHandle) (w : WeakMuxer) :
    Registry :=
  (h, w) :: Registry.remove m h

/-- Model of `self.muxers.get(&handle).and_then(|e| e.upgrade())`: the
Multiplexer id when the entry exists and its weak reference resolves. -/
def Registry.upgradeOf (m : Registry) (h : ConnectionHandle) : Option Nat :=
  (Registry.get? m h).bind (fun w => if w.alive then some w.muxId else none)

/-! ## The connection-event channel (`mpsc::channel(0)`) -/

/-- Model of `crate::connection::EndpointMessage`: the two message kinds the
driver matches on in `drive_events`. -/
inductive EndpointMessage where
  | connectionAccepted
  | endpointEvent (handle : ConnectionHandle) (event : EndpointEvent)
deriving DecidableEq, Repr

/-- Model of the receiving end of the bounded `mpsc` channel carrying
`EndpointMessage`s from connections to the driver: the messages currently
ready for delivery, and the number of live sender clones (one of which is
permanently owned by `EndpointData.event_channel`). -/
structure Channel where
  queue : List EndpointMessage
  senders : Nat
deriving DecidableEq, Repr

/-- Result of polling the channel receiver. -/
inductive PollNext where
  | readyMsg (m : EndpointMessage)
  | readyNone
  | pending
deriving DecidableEq, Repr

/-- Model of `Receiver::poll_next`: a buffered message is delivered first;
with an empty buffer the channel reports closure (`Ready(None)`) exactly when
no sender is left, and `Pending` otherwise. -/
def Channel.poll_next : Channel → PollNext × Channel
  | ⟨m :: rest, s⟩ => (.readyMsg m, ⟨rest, s⟩)
  | ⟨[], s⟩ => if s = 0 then (.readyNone, ⟨[], s⟩) else (.pending, ⟨[], s⟩)

/-- Model of `std::task::Poll`. -/
inductive Poll (α : Type) where
  | ready (a : α)
  | pending
deriving DecidableEq, Repr

/-! ## `EndpointInner` -/

/-- Embedding of `EndpointInner` (endpoint.rs lines 41-49): the Protocol
Engine instance, the Connection Registry, the background-driver handle
(modelled by whether it exists), the pending-transmit buffer (at most one
packet, per the spec of `socket::Pending`) and the connection-event
receiver. -/
structure EndpointInner (E : Type) where
  engine : E
  muxers : Registry
  driver : Bool
  pending : Option Packet
  event_receiver : Channel

/-- Embedding of `EndpointInner::handle_event` (lines 52-64): forward the
event to the Protocol Engine; when the event is drained, additionally remove
the handle's Registry entry; return the engine's answer either way. -/
def EndpointInner.handle_event (ops : EngineOps E) (s : EndpointInner E)
    (handle : ConnectionHandle) (event : EndpointEvent) :
    EndpointInner E × Option ConnectionEvent :=
  if event.is_drained then
    let (e', res) := ops.handleEvent s.engine handle event
    ({ s with engine := e', muxers := Registry.remove s.muxers handle }, res)
  else
    let (e', res) := ops.handleEvent s.engine handle event
    ({ s with engine := e' }, res)

/-- Behaviour of the external Connection Multiplexer
(`Muxer::process_connection_events`, connection.rs): it receives the routed
event under the endpoint lock and may mutate the Protocol Engine and the
Registry through its `&mut EndpointInner` argument. -/
structure MuxerOps (E : Type) where
  process_connection_events :
    Nat → Option ConnectionEvent → E × Registry → E × Registry

/-- Loop body of `EndpointInner::drive_events` (lines 66-85), recursing over
the messages the channel has ready: an accept notification goes to the
engine's `accept`; a connection event is routed through the Registry — a
resolvable weak reference gets the engine's answer delivered to its
Multiplexer, an unresolvable one only has its Registry entry removed. -/
def drive_eventsAux (ops : EngineOps E) (mux : MuxerOps E) :
    List EndpointMessage → E → Registry → E × Registry × List TraceEvent
  | [], e, m => (e, m, [])
  | .connectionAccepted :: rest, e, m =>
      let (e2, m2, tr) := drive_eventsAux ops mux rest (ops.accept e) m
      (e2, m2, .engineAccept :: tr)
  | .endpointEvent handle event :: rest, e, m =>
      match Registry.upgradeOf m handle with
      | none => drive_eventsAux ops mux rest e (Registry.remove m handle)
      | some muxId =>
          let (e1, res) := ops.handleEvent e handle event
          let (e2, m2) := mux.process_connection_events muxId res (e1, m)
          let (e3, m3, tr) := drive_eventsAux ops mux rest e2 m2
          (e3, m3, .engineHandleEvent handle event :: .muxerDeliver muxId res :: tr)

/-- Embedding of `EndpointInner::drive_events` (lines 66-85): drain the
connection-event channel until it reports `Pending`.  The `.unwrap()` on each
received message panics if the channel ever reports closure
(`Ready(None)`), which happens exactly when no sender is left once the buffer
is drained; a panic is modelled as `none`. -/
def EndpointInner.drive_events (ops : EngineOps E) (mux : MuxerOps E)
    (s : EndpointInner E) : Option (EndpointInner E × List TraceEvent) :=
  if s.event_receiver.senders = 0 then none
  else
    let (e2, m2, tr) := drive_eventsAux ops mux s.event_receiver.queue s.engine s.muxers
    some ({ s with
              engine := e2
              muxers := m2
              event_receiver := ⟨[], s.event_receiver.senders⟩ }, tr)

/-- Embedding of `EndpointInner::drive_receive` (lines 87-126), recursing over
the datagrams the socket has ready: each datagram is fed to the engine's
demultiplexer; no actionable outcome continues the loop; an event for an
existing connection is routed through the Registry, with an unresolvable
handle answered by a synthesized drained event into
`EndpointInner::handle_event` whose result is asserted to be `None` (an
assertion failure — the engine returning a further event — is modelled as
`none`); a new connection breaks out of the loop.  An exhausted socket is the
`Pending` suspension. -/
def EndpointInner.drive_receive (ops : EngineOps E) (mux : MuxerOps E)
    (s : EndpointInner E) (socket : List Datagram) :
    Option (EndpointInner E × List Datagram × List TraceEvent ×
            Poll (ConnectionHandle × Connection)) :=
  match socket with
  | [] => some (s, [], [], .pending)
  | d :: rest =>
    let (e1, r) := ops.handleDatagram s.engine d
    let s1 := { s with engine := e1 }
    let hd : List TraceEvent := [.socketRecv d, .engineHandleDatagram d]
    match r with
    | none =>
        match EndpointInner.drive_receive ops mux s1 rest with
        | none => none
        | some (s2, sock2, tr, out) => some (s2, sock2, hd ++ tr, out)
    | some (handle, .connectionEvent ce) =>
        match Registry.upgradeOf s1.muxers handle with
        | some muxId =>
            let (e2, m2) := mux.process_connection_events muxId (some ce)
              (s1.engine, s1.muxers)
            match EndpointInner.drive_receive ops mux
                { s1 with engine := e2, muxers := m2 } rest with
            | none => none
            | some (s2, sock2, tr, out) =>
                some (s2, sock2, hd ++ .muxerDeliver muxId (some ce) :: tr, out)
        | none =>
            let (s2, res) := EndpointInner.handle_event ops s1 handle
              EndpointEvent.drainedEvent
            if res.isSome then none
            else
              match EndpointInner.drive_receive ops mux s2 rest with
              | none => none
              | some (s3, sock3, tr, out) =>
                  some (s3, sock3,
                    hd ++ .engineHandleEvent handle EndpointEvent.drainedEvent :: tr,
                    out)
    | some (handle, .newConnection conn) =>
        some (s1, rest, hd, .ready (handle, conn))

/-! ## Pending-transmit queue (`socket::Pending`) -/

/-- Modelled from the spec: `socket::Pending::send_packet` (socket.rs is not
among the analysed sources).  Per the spec, the Pending-Transmit Queue buffers
at most one outbound datagram awaiting socket readiness, and `send_pending`
drains as many packets as the socket can currently accept — `cap` many —
pulling from the supplied source until it returns none (then `Ready`) or the
socket would block (then the packet is remembered and `Pending` returned). -/
def sendPacketLoop (pollT : E → E × Option Packet) :
    Option Packet → Nat → E → Option Packet × Nat × E × Poll Unit
  | some p, 0, e => (some p, 0, e, .pending)
  | some _p, cap + 1, e => sendPacketLoop pollT none cap e
  | none, cap, e =>
      match pollT e with
      | (e1, none) => (none, cap, e1, .ready ())
      | (e1, some p) =>
          match cap with
          | 0 => (some p, 0, e1, .pending)
          | c + 1 => sendPacketLoop pollT none c e1

/-- Embedding of `EndpointInner::poll_transmit_pending` (lines 128-137):
`pending.send_packet(cx, socket, &mut || inner.poll_transmit())`, with `cap`
the number of packets the Datagram Socket currently accepts before it would
block. -/
def EndpointInner.poll_transmit_pending (ops : EngineOps E)
    (s : EndpointInner E) (cap : Nat) : EndpointInner E × Nat × Poll Unit :=
  let (p1, cap1, e1, r) := sendPacketLoop ops.poll_transmit s.pending cap s.engine
  ({ s with pending := p1, engine := e1 }, cap1, r)

/-! ## `EndpointData` and the driver -/

/-- Model of `libp2p_core::transport::ListenerEvent` as published on the
new-connections channel: the initial address announcement or an inbound
upgrade (identified by its Multiplexer id) with local and remote address. -/
inductive ListenerEvent where
  | newAddress (a : Multiaddr)
  | upgrade (muxId : Nat) (local_addr remote_addr : Multiaddr)
deriving DecidableEq, Repr

/-- Embedding of `EndpointData` (lines 140-158) together with the ambient
runtime facts the driver reads: the datagrams the socket has ready
(`socketIncoming`), the socket's current send capacity (`socketSendCap`), the
buffer and liveness of the unbounded new-connections channel, the taken-or-not
receiving half (`receive_connections`), the construction address, the strong
count of the `Arc<EndpointData>` and a supply of fresh Multiplexer
identities for `ConnectionDriver::spawn`. -/
structure EndpointData (E : Type) where
  inner : EndpointInner E
  socketIncoming : List Datagram
  socketSendCap : Nat
  new_connections : List ListenerEvent
  new_connectionsReceiverAlive : Bool
  receive_connections : Option Unit
  address : Multiaddr
  strongCount : Nat
  nextMuxId : Nat

/-- The `Upgrade` returned by `create_muxer`: identified by the fresh
Multiplexer it resolves to. -/
abbrev Upgrade := Nat

/-- Embedding of `create_muxer` (lines 243-252).  `ConnectionDriver::spawn`
(connection.rs, not among the analysed sources) is modelled from the spec: the
Multiplexer is constructed from the endpoint reference, the connection state,
the handle and a registration callback, and the callback is invoked with a
weak reference to the freshly created, live Multiplexer — here the source's
callback `|weak| inner.muxers.insert(handle, weak)`. -/
def create_muxer (d : EndpointData E) (_connection : Connection)
    (handle : ConnectionHandle) : EndpointData E × Upgrade :=
  ({ d with
      inner := { d.inner with
        muxers := Registry.insert d.inner.muxers handle ⟨d.nextMuxId, true⟩ }
      nextMuxId := d.nextMuxId + 1 }, d.nextMuxId)

/-- Model of `mpsc::UnboundedSender::unbounded_send` on the new-connections
channel: enqueues and succeeds while the receiving end is alive, fails once it
has been dropped. -/
def EndpointData.unbounded_send (d : EndpointData E) (ev : ListenerEvent) :
    EndpointData E × Bool :=
  if d.new_connectionsReceiverAlive then
    ({ d with new_connections := d.new_connections ++ [ev] }, true)
  else (d, false)

/-- Embedding of `EndpointDriver::accept_muxer` (lines 254-275): create and
register the Multiplexer, publish the upgrade notification (the source
reports the endpoint's own address as both local and remote address), and if
the channel's receiving end is gone, tell the engine to accept this connection
and then reject further ones. -/
def EndpointDriver.accept_muxer (ops : EngineOps E) (d : EndpointData E)
    (connection : Connection) (handle : ConnectionHandle) :
    EndpointData E × List TraceEvent :=
  let (d1, upgrade) := create_muxer d connection handle
  let (d2, sent) := d1.unbounded_send (.upgrade upgrade d1.address d1.address)
  if sent then (d2, [])
  else
    ({ d2 with inner := { d2.inner with
        engine := ops.reject_new_connections (ops.accept d2.inner.engine) } },
     [.engineAccept, .engineReject])

/-- Embedding of `<EndpointDriver as Future>::poll` (lines 278-308).  Every
arm of the source's `loop` breaks, so one call is one pass: drain
connection-originated events, drive inbound datagrams, and on `Pending` flush
the transmit queue once and suspend; on a new connection, accept it, flush,
and terminate successfully exactly when the flush completed and the driver's
strong reference is the only one left — otherwise suspend.  A panic in either
phase (channel closure unwrap, or the drained assertion) is `none`; socket
I/O errors are not modelled, so the terminal state `Poll.ready ()` is the
source's `Poll::Ready(Ok(()))`. -/
def EndpointDriver.poll (ops : EngineOps E) (mux : MuxerOps E)
    (d : EndpointData E) :
    Option (EndpointData E × List TraceEvent × Poll Unit) :=
  match d.inner.drive_events ops mux with
  | none => none
  | some (inner1, tr1) =>
    match inner1.drive_receive ops mux d.socketIncoming with
    | none => none
    | some (inner2, sock2, tr2, .pending) =>
        let (inner3, cap3, _r) := inner2.poll_transmit_pending ops d.socketSendCap
        some ({ d with
                  inner := inner3
                  socketIncoming := sock2
                  socketSendCap := cap3 }, tr1 ++ tr2, .pending)
    | some (inner2, sock2, tr2, .ready (handle, connection)) =>
        let d2 := { d with
                      inner := inner2
                      socketIncoming := sock2 }
        let (d3, tr3) := EndpointDriver.accept_muxer ops d2 connection handle
        let (inner4, cap4, r4) := d3.inner.poll_transmit_pending ops d3.socketSendCap
        let d4 := { d3 with inner := inner4, socketSendCap := cap4 }
        match r4 with
        | .pending => some (d4, tr1 ++ tr2 ++ tr3, .pending)
        | .ready () =>
            if d4.strongCount = 1 then some (d4, tr1 ++ tr2 ++ tr3, .ready ())
            else some (d4, tr1 ++ tr2 ++ tr3, .pending)

/-! ## Transport entry points -/

/-- Model of the errors the entry points return:
`TransportError::MultiaddrNotSupported`, `TransportError::Other` around
`Error::AlreadyListening`, and `TransportError::Other` around
`Error::CannotConnect`. -/
inductive TransportError where
  | multiaddrNotSupported (addr : Multiaddr)
  | alreadyListening
  | cannotConnect
deriving DecidableEq, Repr

/-- Model of `Listener` (lines 310-324): it owns the taken receiving half of
the new-connections channel (the channel's buffered contents stay in
`EndpointData.new_connections`, which the Listener's stream reads). -/
structure Listener where
  channel : Unit
deriving DecidableEq, Repr

/-- Embedding of `<&Endpoint as Transport>::listen_on` (lines 333-348): any
address other than the construction address is rejected; otherwise the
receiving half of the new-connections channel is taken (`Option::take`),
failing with `AlreadyListening` when a previous call already took it; the
driver is spawned if absent. -/
def listen_on (d : EndpointData E) (addr : Multiaddr) :
    EndpointData E × Except TransportError Listener :=
  if addr != d.address then (d, .error (.multiaddrNotSupported addr))
  else
    match d.receive_connections with
    | none => (d, .error .alreadyListening)
    | some ch =>
        let d1 := { d with receive_connections := none }
        let d2 :=
          if d1.inner.driver then d1
          else { d1 with inner := { d1.inner with driver := true } }
        (d2, .ok ⟨ch⟩)

/-- Embedding of `<&Endpoint as Transport>::dial` (lines 350-378): an address
that does not parse, has port 0 or names an unspecified host is rejected
before the lock is taken (so before any Protocol Engine or Datagram Socket
interaction); otherwise the driver is spawned if absent and the engine's
`connect` is invoked — a rejection is returned synchronously as
`CannotConnect`, a success creates and registers the Multiplexer and returns
its upgrade. -/
def dial (ops : EngineOps E) (d : EndpointData E) (addr : Multiaddr) :
    EndpointData E × Except TransportError Upgrade × List TraceEvent :=
  match multiaddr_to_socketaddr addr with
  | .error _ => (d, .error (.multiaddrNotSupported addr), [])
  | .ok socket_addr =>
    if socket_addr.port == 0 || socket_addr.ip.is_unspecified then
      (d, .error (.multiaddrNotSupported addr), [])
    else
      let d1 :=
        if d.inner.driver then d
        else { d with inner := { d.inner with driver := true } }
      let (e1, res) := ops.connect d1.inner.engine socket_addr
      let d2 := { d1 with inner := { d1.inner with engine := e1 } }
      match res with
      | .error _ => (d2, .error .cannotConnect, [.engineConnect socket_addr])
      | .ok (handle, conn) =>
          let (d3, upgrade) := create_muxer d2 conn handle
          (d3, .ok upgrade, [.engineConnect socket_addr])

/-- Embedding of `Endpoint::new` (lines 197-240), minus the actual socket
bind (I/O): rejects an address that does not parse; otherwise builds the
fresh `EndpointData` — empty Registry, spawned driver, both channels fresh
(the event channel's sender owned by `EndpointData`, so one sender), the
receiving half of the new-connections channel present — and publishes the
initial `NewAddress` announcement. -/
def Endpoint.new (e0 : E) (address : Multiaddr) :
    Except TransportError (EndpointData E) :=
  match multiaddr_to_socketaddr address with
  | .error _ => .error (.multiaddrNotSupported address)
  | .ok _sa =>
      .ok { inner := { engine := e0, muxers := [], driver := true,
                       pending := none, event_receiver := ⟨[], 1⟩ }
            socketIncoming := []
            socketSendCap := 0
            new_connections := [.newAddress address]
            new_connectionsReceiverAlive := true
            receive_connections := some ()
            address := address
            strongCount := 1
            nextMuxId := 0 }

/-! ## Concrete collaborator instances (used to evaluate the embedding on
concrete inputs) -/

/-- A trivial Protocol Engine with no internal state: it classifies nothing,
answers every event with no follow-up event, and rejects every connect. -/
def unitOps : EngineOps Unit where
  handleEvent := fun e _ _ => (e, none)
  accept := fun e => e
  reject_new_connections := fun e => e
  handleDatagram := fun e _ => (e, none)
  connect := fun e _ => (e, .error ())
  poll_transmit := fun e => (e, none)

/-- A Multiplexer that does nothing when events are delivered. -/
def unitMux (E : Type) : MuxerOps E where
  process_connection_events := fun _ _ em => em

/-- A Protocol Engine whose state is the list of calls it has received, so a
run can be inspected for which operations the engine observed.  It answers
every event with no follow-up, classifies nothing, and rejects connects. -/
def logOps : EngineOps (List TraceEvent) where
  handleEvent := fun e h ev => (e ++ [.engineHandleEvent h ev], none)
  accept := fun e => e ++ [.engineAccept]
  reject_new_connections := fun e => e ++ [.engineReject]
  handleDatagram := fun e d => (e ++ [.engineHandleDatagram d], none)
  connect := fun e a => (e ++ [.engineConnect a], .error ())
  poll_transmit := fun e => (e, none)

/-- The sample construction address `(127.0.0.1, 12345, quic)`. -/
def addr0 : Multiaddr := [.ip4 127 0 0 1, .udp 12345, .quic]

/-! ## C9: the address parser -/

set_option maxHeartbeats 2000000 in
/-- C9: the address parser maps the literal `(127.0.0.1, 12345, quic)` to the
socket endpoint `127.0.0.1:12345`, and an address parses successfully exactly
when it is a three-segment (IPv4-or-IPv6 literal, UDP port, QUIC marker)
address — so every address missing the marker, in the wrong order, or with
extra trailing segments is rejected. -/
theorem multiaddr_to_socketaddr_characterization :
    multiaddr_to_socketaddr [Protocol.ip4 127 0 0 1, Protocol.udp 12345, Protocol.quic] =
      Except.ok ⟨IpAddr.v4 127 0 0 1, 12345⟩ ∧
    ∀ addr : Multiaddr,
      (∃ sa, multiaddr_to_socketaddr addr = Except.ok sa) ↔
      ((∃ a b c d port,
          addr = [Protocol.ip4 a b c d, Protocol.udp port, Protocol.quic]) ∨
       (∃ s1 s2 s3 s4 s5 s6 s7 s8 port,
          addr = [Protocol.ip6 s1 s2 s3 s4 s5 s6 s7 s8, Protocol.udp port,
                  Protocol.quic])) := by
  refine ⟨rfl, fun addr => ?_⟩
  rcases addr with _ | ⟨p1, _ | ⟨p2, _ | ⟨p3, _ | ⟨p4, rest⟩⟩⟩⟩
  · simp [multiaddr_to_socketaddr]
  · simp [multiaddr_to_socketaddr]
  · simp [multiaddr_to_socketaddr]
  · simp only [multiaddr_to_socketaddr, List.isEmpty, if_true]
    cases p1 <;> cases p2 <;> cases p3 <;> simp [segments_to_socketaddr]
  · simp [multiaddr_to_socketaddr]

/-! ## C3: `handle_event` -/

/-- C3: `EndpointInner::handle_event` forwards the event to the Protocol
Engine and returns the engine's answer, updates the engine state to the
engine's updated state, removes the handle's Registry entry exactly when the
event is drained, and touches nothing else. -/
theorem handle_event_forwards_and_cleans (ops : EngineOps E)
    (s : EndpointInner E) (handle : ConnectionHandle) (event : EndpointEvent) :
    (s.handle_event ops handle event).2 =
      (ops.handleEvent s.engine handle event).2 ∧
    (s.handle_event ops handle event).1.engine =
      (ops.handleEvent s.engine handle event).1 ∧
    (s.handle_event ops handle event).1.muxers =
      (if event.is_drained then Registry.remove s.muxers handle
       else s.muxers) ∧
    (s.handle_event ops handle event).1.driver = s.driver ∧
    (s.handle_event ops handle event).1.pending = s.pending ∧
    (s.handle_event ops handle event).1.event_receiver = s.event_receiver := by
  unfold EndpointInner.handle_event
  cases h : event.is_drained <;> simp [h]

/-- A freshly constructed endpoint over the trivial engine at `addr0`,
exactly the data `Endpoint.new` produces (see `data0_new`). -/
def data0 : EndpointData Unit where
  inner := { engine := (), muxers := [], driver := true, pending := none,
             event_receiver := ⟨[], 1⟩ }
  socketIncoming := []
  socketSendCap := 0
  new_connections := [.newAddress addr0]
  new_connectionsReceiverAlive := true
  receive_connections := some ()
  address := addr0
  strongCount := 1
  nextMuxId := 0

/-- Sanity: `data0` is the endpoint `Endpoint.new` constructs at `addr0`. -/
theorem data0_new : Endpoint.new () addr0 = .ok data0 := rfl

/-! ## C7: one Listener at a time -/

/-- C7: on an endpoint whose new-connection receiving channel has not been
taken, `listen_on` at the construction address succeeds and takes the
channel; a second `listen_on` before the first Listener is released fails
with the already-listening error and leaves the endpoint state — in
particular the first Listener's channel buffer — completely untouched. -/
theorem listen_on_single_listener (d : EndpointData E)
    (h : d.receive_connections = some ()) :
    (listen_on d d.address).2 = Except.ok ⟨()⟩ ∧
    (listen_on d d.address).1.receive_connections = none ∧
    (listen_on (listen_on d d.address).1 d.address).2 =
      Except.error TransportError.alreadyListening ∧
    (listen_on (listen_on d d.address).1 d.address).1 =
      (listen_on d d.address).1 := by
  have hbne : (d.address != d.address) = false := by simp
  cases hdr : d.inner.driver <;>
    simp [listen_on, h, hbne, hdr]

/-- Witness for C7 at the concrete endpoint `data0`. -/
theorem listen_on_single_listener_witness :
    (listen_on data0 data0.address).2 = Except.ok ⟨()⟩ ∧
    (listen_on data0 data0.address).1.receive_connections = none ∧
    (listen_on (listen_on data0 data0.address).1 data0.address).2 =
      Except.error TransportError.alreadyListening ∧
    (listen_on (listen_on data0 data0.address).1 data0.address).1 =
      (listen_on data0 data0.address).1 :=
  listen_on_single_listener data0 rfl

/-! ## C8: `dial` error paths -/

/-- C8: an address whose port is 0 or whose host is unspecified makes `dial`
return `MultiaddrNotSupported` with the state unchanged and an empty
interaction trace (no Protocol Engine call, no Datagram Socket access); and
when the engine rejects the connect attempt, `dial` returns the error
synchronously and creates no Registry entry. -/
theorem dial_error_paths (ops : EngineOps E) (d : EndpointData E)
    (addr : Multiaddr) :
    (∀ sa, multiaddr_to_socketaddr addr = .ok sa →
        (sa.port == 0 || sa.ip.is_unspecified) = true →
        dial ops d addr = (d, .error (.multiaddrNotSupported addr), [])) ∧
    (∀ sa, multiaddr_to_socketaddr addr = .ok sa →
        (sa.port == 0 || sa.ip.is_unspecified) = false →
        (ops.connect d.inner.engine sa).2 = .error () →
        (dial ops d addr).2.1 = .error .cannotConnect ∧
        (dial ops d addr).1.inner.muxers = d.inner.muxers ∧
        (dial ops d addr).2.2 = [.engineConnect sa]) := by
  constructor
  · intro sa hsa hbad
    simp [dial, hsa, hbad]
  · intro sa hsa hgood hconn
    cases hcp : ops.connect d.inner.engine sa with
    | mk e1 r =>
      rw [hcp] at hconn
      simp at hconn
      subst hconn
      cases hdr : d.inner.driver <;>
        simp [dial, hsa, hgood, hdr, hcp]

/-- Witness for C8: `dial` on `data0` rejects `(127.0.0.1, 0, quic)` without
any engine interaction, and the trivial engine's connect rejection surfaces
synchronously on `addr0` with the Registry untouched. -/
theorem dial_error_paths_witness :
    dial unitOps data0 [Protocol.ip4 127 0 0 1, Protocol.udp 0, Protocol.quic] =
      (data0,
       .error (.multiaddrNotSupported
         [Protocol.ip4 127 0 0 1, Protocol.udp 0, Protocol.quic]), []) ∧
    (dial unitOps data0 addr0).2.1 = .error .cannotConnect ∧
    (dial unitOps data0 addr0).1.inner.muxers = data0.inner.muxers ∧
    (dial unitOps data0 addr0).2.2 = [.engineConnect ⟨.v4 127 0 0 1, 12345⟩] :=
  ⟨(dial_error_paths unitOps data0 _).1 _ rfl (by decide),
   (dial_error_paths unitOps data0 addr0).2 ⟨.v4 127 0 0 1, 12345⟩ rfl
     (by decide) rfl⟩

/-! ## C2: phase-1 routing for an unresolvable handle -/

/-- An `EndpointInner` over the call-logging engine whose channel holds one
endpoint-directed event for handle 7, and whose Registry entry for handle 7
holds a dead weak reference (the Multiplexer is gone). -/
def innerDeadWeak : EndpointInner (List TraceEvent) where
  engine := []
  muxers := [(7, ⟨0, false⟩)]
  driver := true
  pending := none
  event_receiver := ⟨[.endpointEvent 7 ⟨false, 5⟩], 1⟩

/-- C2 counterexample: in phase 1 (`drive_events`), a message for a handle
whose weak reference fails to resolve does NOT synthesize a drained event
into the Protocol Engine — the source's arm is
`None => drop(self.muxers.remove(&handle))`.  Concretely, on `innerDeadWeak`
the run ends with the engine's call log still empty (`engine := []` below,
no `engineHandleEvent` ever issued), an empty interaction trace, and the
Registry entry merely removed — refuting the claimed drained synthesis. -/
theorem drive_events_no_drained_synthesis :
    innerDeadWeak.drive_events logOps (unitMux (List TraceEvent)) =
      some ({ innerDeadWeak with
                engine := []
                muxers := []
                event_receiver := ⟨[], 1⟩ }, []) := rfl

/-- C2 amended: in phase 1, a message carrying an endpoint-directed event for
a handle with no resolvable Registry entry only has that entry removed: no
Protocol Engine call is made, no Multiplexer delivery is attempted, the
engine state is untouched and the interaction trace is empty (the drained
synthesis of the lookup-and-route contract happens only in phase 2,
`drive_receive`). -/
theorem drive_events_dead_handle_removes_only (ops : EngineOps E)
    (mux : MuxerOps E) (s : EndpointInner E) (handle : ConnectionHandle)
    (event : EndpointEvent)
    (hq : s.event_receiver.queue = [.endpointEvent handle event])
    (hs : s.event_receiver.senders ≠ 0)
    (hm : Registry.upgradeOf s.muxers handle = none) :
    s.drive_events ops mux =
      some ({ s with
                muxers := Registry.remove s.muxers handle
                event_receiver := ⟨[], s.event_receiver.senders⟩ }, []) := by
  simp [EndpointInner.drive_events, hs, hq, drive_eventsAux, hm]

/-- Witness for the amended C2 on the concrete state `innerDeadWeak`. -/
theorem drive_events_dead_handle_removes_only_witness :
    EndpointInner.drive_events logOps (unitMux (List TraceEvent)) innerDeadWeak =
      some ({ innerDeadWeak with
                muxers := Registry.remove innerDeadWeak.muxers 7
                event_receiver := ⟨[], innerDeadWeak.event_receiver.senders⟩ },
            []) :=
  drive_events_dead_handle_removes_only logOps (unitMux (List TraceEvent))
    innerDeadWeak 7 ⟨false, 5⟩ rfl (by decide) rfl

/-! ## C5: inbound connection with no active Listener -/

/-- An endpoint over the call-logging engine whose new-connections channel
has lost its receiving end (no Listener is active). -/
def dataNoListener : EndpointData (List TraceEvent) where
  inner := { engine := [], muxers := [], driver := true, pending := none,
             event_receiver := ⟨[], 1⟩ }
  socketIncoming := []
  socketSendCap := 0
  new_connections := []
  new_connectionsReceiverAlive := false
  receive_connections := none
  address := addr0
  strongCount := 2
  nextMuxId := 0

/-- C5 counterexample: accepting inbound connection 3 with handle 7 while no
Listener is active does make the engine observe accept-then-reject, but the
Registry entry installed by `create_muxer` SURVIVES the call — the Registry
still maps handle 7 afterwards, refuting the claim that no Registry entry for
the connection survives beyond that point. -/
theorem accept_muxer_entry_survives :
    (EndpointDriver.accept_muxer logOps dataNoListener 3 7).1.inner.muxers =
      [(7, ⟨0, true⟩)] ∧
    (EndpointDriver.accept_muxer logOps dataNoListener 3 7).2 =
      [.engineAccept, .engineReject] := ⟨rfl, rfl⟩

/-- C5 amended: when the new-connections channel has no receiver and a new
inbound connection arrives, the Protocol Engine observes an accept
immediately followed by a reject-further-connections call, but the Registry
entry installed for the connection during Multiplexer creation remains in
place (it is removed only later, by the lazy dead-weak-reference or drained
cleanup). -/
theorem accept_muxer_no_listener (ops : EngineOps E) (d : EndpointData E)
    (connection : Connection) (handle : ConnectionHandle)
    (h : d.new_connectionsReceiverAlive = false) :
    (EndpointDriver.accept_muxer ops d connection handle).2 =
      [.engineAccept, .engineReject] ∧
    (EndpointDriver.accept_muxer ops d connection handle).1.inner.engine =
      ops.reject_new_connections (ops.accept d.inner.engine) ∧
    Registry.get?
        (EndpointDriver.accept_muxer ops d connection handle).1.inner.muxers
        handle =
      some ⟨d.nextMuxId, true⟩ := by
  simp [EndpointDriver.accept_muxer, create_muxer,
    EndpointData.unbounded_send, h, Registry.get?, Registry.insert,
    List.find?]

/-- Witness for the amended C5 on the concrete endpoint `dataNoListener`. -/
theorem accept_muxer_no_listener_witness :
    (EndpointDriver.accept_muxer logOps dataNoListener 3 7).2 =
      [.engineAccept, .engineReject] ∧
    (EndpointDriver.accept_muxer logOps dataNoListener 3 7).1.inner.engine =
      logOps.reject_new_connections (logOps.accept dataNoListener.inner.engine) ∧
    Registry.get?
        (EndpointDriver.accept_muxer logOps dataNoListener 3 7).1.inner.muxers
        7 =
      some ⟨dataNoListener.nextMuxId, true⟩ :=
  accept_muxer_no_listener logOps dataNoListener 3 7 rfl

/-! ## C10: the channel-closure unwrap in `drive_events` -/

/-- C10: the `.unwrap()` in `drive_events` cannot panic while the driver is
alive.  The driver's strong reference keeps `EndpointData` alive, and
`EndpointData.event_channel` is a live sender clone of the connection-event
channel, so the channel's sender count stays at least one for the driver's
whole life: under that invariant polling the receiver never reports closure
(`Ready(None)`), `drive_events` never reaches the panic, and a freshly
constructed endpoint starts with the invariant established (its only sender
is the one `EndpointData` owns). -/
theorem event_channel_unwrap_safe (ops : EngineOps E) (mux : MuxerOps E)
    (s : EndpointInner E) (h : 1 ≤ s.event_receiver.senders) :
    (s.event_receiver.poll_next).1 ≠ PollNext.readyNone ∧
    s.drive_events ops mux ≠ none ∧
    (∀ (e0 : E) (addr : Multiaddr) (d0 : EndpointData E),
      Endpoint.new e0 addr = .ok d0 → 1 ≤ d0.inner.event_receiver.senders) := by
  refine ⟨?_, ?_, ?_⟩
  · rcases hch : s.event_receiver with ⟨queue, senders⟩
    rcases queue with _ | ⟨m, rest⟩
    · have : senders ≠ 0 := by rw [hch] at h; simp at h; omega
      simp [Channel.poll_next, this]
    · simp [Channel.poll_next]
  · have : s.event_receiver.senders ≠ 0 := by omega
    simp [EndpointInner.drive_events, this]
  · intro e0 addr d0 hnew
    unfold Endpoint.new at hnew
    rcases hp : multiaddr_to_socketaddr addr with _ | sa <;> rw [hp] at hnew
    · cases hnew
    · simp only [Except.ok.injEq] at hnew
      subst hnew
      exact Nat.le_refl 1

/-- Witness for C10 at the fresh endpoint `data0`. -/
theorem event_channel_unwrap_safe_witness :
    (data0.inner.event_receiver.poll_next).1 ≠ PollNext.readyNone ∧
    data0.inner.drive_events unitOps (unitMux Unit) ≠ none ∧
    (∀ (e0 : Unit) (addr : Multiaddr) (d0 : EndpointData Unit),
      Endpoint.new e0 addr = .ok d0 → 1 ≤ d0.inner.event_receiver.senders) :=
  event_channel_unwrap_safe unitOps (unitMux Unit) data0.inner (by decide)

/-! ## C4: phase-2 datagram for an unresolvable handle -/

/-- C4: in the inbound-datagram phase, a datagram the engine classifies as an
event for an existing connection whose handle has no resolvable Registry
entry makes the engine receive exactly one synthesized drained
acknowledgment for that handle — the interaction trace of the step is
exactly socket read, demultiplex, drained synthesis, with no Multiplexer
delivery — and the acknowledgment is asserted to produce no further event:
if the engine does answer the drained event, the assertion fails (modelled
as `none`). -/
theorem drive_receive_dead_handle_drains (ops : EngineOps E)
    (mux : MuxerOps E) (s : EndpointInner E) (dg : Datagram)
    (handle : ConnectionHandle) (ce : ConnectionEvent) (e1 : E)
    (h1 : ops.handleDatagram s.engine dg =
            (e1, some (handle, .connectionEvent ce)))
    (h2 : Registry.upgradeOf s.muxers handle = none) :
    (∀ e2, ops.handleEvent e1 handle EndpointEvent.drainedEvent = (e2, none) →
        s.drive_receive ops mux [dg] =
          some ({ s with
                    engine := e2
                    muxers := Registry.remove s.muxers handle },
                [],
                [.socketRecv dg, .engineHandleDatagram dg,
                 .engineHandleEvent handle EndpointEvent.drainedEvent],
                .pending)) ∧
    (∀ e2 cev,
        ops.handleEvent e1 handle EndpointEvent.drainedEvent = (e2, some cev) →
        s.drive_receive ops mux [dg] = none) := by
  constructor
  · intro e2 hev
    have hev' : ops.handleEvent e1 handle ⟨true, 0⟩ = (e2, none) := hev
    simp [EndpointInner.drive_receive, h1, h2, EndpointInner.handle_event,
      EndpointEvent.is_drained, EndpointEvent.drainedEvent, hev']
  · intro e2 cev hev
    have hev' : ops.handleEvent e1 handle ⟨true, 0⟩ = (e2, some cev) := hev
    simp [EndpointInner.drive_receive, h1, h2, EndpointInner.handle_event,
      EndpointEvent.is_drained, EndpointEvent.drainedEvent, hev']

/-- An engine over `Nat` state that classifies every datagram as an event for
existing connection 7 and answers every event with no follow-up, counting the
events it has been handed. -/
def classifyOps : EngineOps Nat where
  handleEvent := fun e _ _ => (e + 1, none)
  accept := fun e => e
  reject_new_connections := fun e => e
  handleDatagram := fun e _ => (e, some (7, .connectionEvent 3))
  connect := fun e _ => (e, .error ())
  poll_transmit := fun e => (e, none)

/-- A bare `EndpointInner` over the counting engine with an empty Registry. -/
def innerEmpty : EndpointInner Nat where
  engine := 0
  muxers := []
  driver := true
  pending := none
  event_receiver := ⟨[], 1⟩

/-- Witness for C4: a concrete datagram classified to handle 7, which has no
Registry entry, produces exactly the drained synthesis. -/
theorem drive_receive_dead_handle_drains_witness :
    EndpointInner.drive_receive classifyOps (unitMux Nat) innerEmpty
        [⟨⟨.v4 10 0 0 1, 4000⟩, 99⟩] =
      some ({ innerEmpty with
                engine := 1
                muxers := Registry.remove innerEmpty.muxers 7 },
            [],
            [.socketRecv ⟨⟨.v4 10 0 0 1, 4000⟩, 99⟩,
             .engineHandleDatagram ⟨⟨.v4 10 0 0 1, 4000⟩, 99⟩,
             .engineHandleEvent 7 EndpointEvent.drainedEvent],
            .pending) :=
  (drive_receive_dead_handle_drains classifyOps (unitMux Nat) innerEmpty
      ⟨⟨.v4 10 0 0 1, 4000⟩, 99⟩ 7 3 0 rfl rfl).1 1 rfl

/-! ## C6: phase 1 runs to exhaustion before phase 2 -/

/-- Discriminator for Datagram Socket reads in a trace. -/
def TraceEvent.isSocketRecv : TraceEvent → Bool
  | .socketRecv _ => true
  | _ => false

/-- No step of the phase-1 loop reads the Datagram Socket. -/
theorem drive_eventsAux_no_socket_recv (ops : EngineOps E) (mux : MuxerOps E)
    (msgs : List EndpointMessage) :
    ∀ (e : E) (m : Registry),
      ((drive_eventsAux ops mux msgs e m).2.2).all
        (fun ev => ! ev.isSocketRecv) = true := by
  induction msgs with
  | nil => intro e m; simp [drive_eventsAux]
  | cons msg rest ih =>
    intro e m
    cases msg with
    | connectionAccepted =>
      rcases hr : drive_eventsAux ops mux rest (ops.accept e) m with ⟨e2, m2, tr⟩
      have := ih (ops.accept e) m
      rw [hr] at this
      simp [drive_eventsAux, hr, TraceEvent.isSocketRecv]
      simpa using this
    | endpointEvent handle event =>
      cases hm : Registry.upgradeOf m handle with
      | none =>
        have := ih e (Registry.remove m handle)
        simpa [drive_eventsAux, hm] using this
      | some muxId =>
        rcases hp : ops.handleEvent e handle event with ⟨e1, res⟩
        rcases hq : mux.process_connection_events muxId res (e1, m) with ⟨e2, m2⟩
        rcases hr : drive_eventsAux ops mux rest e2 m2 with ⟨e3, m3, tr⟩
        have := ih e2 m2
        rw [hr] at this
        simp [drive_eventsAux, hm, hp, hq, hr, TraceEvent.isSocketRecv]
        simpa using this

/-- C6: in every successful driver poll, the interaction trace splits into
the phase-1 trace followed by the rest, the phase-1 trace contains no
Datagram Socket read, and the connection-event channel is fully drained
(empty queue) when phase 1 finishes — so every connection-originated event
available on the channel is processed before any new inbound datagram is
read. -/
theorem poll_phase_order (ops : EngineOps E) (mux : MuxerOps E)
    (d d' : EndpointData E) (tr : List TraceEvent) (p : Poll Unit)
    (h : EndpointDriver.poll ops mux d = some (d', tr, p)) :
    ∃ inner1 tr1 rest,
      d.inner.drive_events ops mux = some (inner1, tr1) ∧
      inner1.event_receiver.queue = [] ∧
      tr = tr1 ++ rest ∧
      tr1.all (fun ev => ! ev.isSocketRecv) = true := by
  unfold EndpointDriver.poll at h
  cases hde : d.inner.drive_events ops mux with
  | none => simp [hde] at h
  | some out1 =>
    rcases out1 with ⟨inner1, tr1⟩
    simp only [hde] at h
    obtain ⟨hq, hall⟩ : inner1.event_receiver.queue = [] ∧
        tr1.all (fun ev => ! ev.isSocketRecv) = true := by
      unfold EndpointInner.drive_events at hde
      split at hde
      · cases hde
      · rcases hr : drive_eventsAux ops mux d.inner.event_receiver.queue
            d.inner.engine d.inner.muxers with ⟨e2, m2, trx⟩
        rw [hr] at hde
        simp only [Option.some.injEq, Prod.mk.injEq] at hde
        obtain ⟨hrec, htr⟩ := hde
        subst htr
        constructor
        · rw [← hrec]
        · have := drive_eventsAux_no_socket_recv ops mux
            d.inner.event_receiver.queue d.inner.engine d.inner.muxers
          rw [hr] at this
          simpa using this
    cases hdr : inner1.drive_receive ops mux d.socketIncoming with
    | none => simp [hdr] at h
    | some out2 =>
      rcases out2 with ⟨inner2, sock2, tr2, pr⟩
      cases pr with
      | pending =>
        simp only [hdr] at h
        rcases htp0 : EndpointInner.poll_transmit_pending ops inner2
            d.socketSendCap with ⟨inner3, cap3, r3⟩
        simp only [htp0, Option.some.injEq, Prod.mk.injEq] at h
        exact ⟨inner1, tr1, tr2, rfl, hq, h.2.1.symm, hall⟩
      | ready hc =>
        rcases hc with ⟨handle, conn⟩
        simp only [hdr] at h
        rcases hac : EndpointDriver.accept_muxer ops
            { d with inner := inner2, socketIncoming := sock2 } conn handle
          with ⟨d3, tr3⟩
        simp only [hac] at h
        rcases htp : d3.inner.poll_transmit_pending ops d3.socketSendCap
          with ⟨inner4, cap4, r4⟩
        simp only [htp] at h
        cases r4 with
        | pending =>
          simp only [Option.some.injEq, Prod.mk.injEq] at h
          refine ⟨inner1, tr1, tr2 ++ tr3, rfl, hq, ?_, hall⟩
          rw [← h.2.1, List.append_assoc]
        | ready u =>
          cases u
          simp only [] at h
          split at h <;>
          · simp only [Option.some.injEq, Prod.mk.injEq] at h
            refine ⟨inner1, tr1, tr2 ++ tr3, rfl, hq, ?_, hall⟩
            rw [← h.2.1, List.append_assoc]

/-- An endpoint over the call-logging engine with one accept notification
queued on the connection-event channel and nothing else to do. -/
def dataC6 : EndpointData (List TraceEvent) where
  inner := { engine := [], muxers := [], driver := true, pending := none,
             event_receiver := ⟨[.connectionAccepted], 1⟩ }
  socketIncoming := []
  socketSendCap := 0
  new_connections := []
  new_connectionsReceiverAlive := true
  receive_connections := some ()
  address := addr0
  strongCount := 2
  nextMuxId := 0

/-- The state `dataC6` reaches after one driver poll. -/
def dataC6' : EndpointData (List TraceEvent) where
  inner := { engine := [.engineAccept], muxers := [], driver := true,
             pending := none, event_receiver := ⟨[], 1⟩ }
  socketIncoming := []
  socketSendCap := 0
  new_connections := []
  new_connectionsReceiverAlive := true
  receive_connections := some ()
  address := addr0
  strongCount := 2
  nextMuxId := 0

/-- Witness for C6: a concrete poll of `dataC6` and the phase split it
yields. -/
theorem poll_phase_order_witness :
    EndpointDriver.poll logOps (unitMux (List TraceEvent)) dataC6 =
      some (dataC6', [.engineAccept], Poll.pending) ∧
    ∃ inner1 tr1 rest,
      dataC6.inner.drive_events logOps (unitMux (List TraceEvent)) =
        some (inner1, tr1) ∧
      inner1.event_receiver.queue = [] ∧
      ([TraceEvent.engineAccept] : List TraceEvent) = tr1 ++ rest ∧
      tr1.all (fun ev => ! ev.isSocketRecv) = true :=
  ⟨by rfl, poll_phase_order logOps (unitMux (List TraceEvent)) dataC6 dataC6'
    [.engineAccept] Poll.pending (by rfl)⟩

/-! ## C1: driver termination -/

/-- An endpoint over the trivial engine in the claimed shutdown situation:
every external handle dropped (strong count 1), no pending transmission,
nothing queued, no datagram ready. -/
def dataIdle : EndpointData Unit where
  inner := { engine := (), muxers := [], driver := true, pending := none,
             event_receiver := ⟨[], 1⟩ }
  socketIncoming := []
  socketSendCap := 0
  new_connections := []
  new_connectionsReceiverAlive := true
  receive_connections := some ()
  address := addr0
  strongCount := 1
  nextMuxId := 0

/-- C1 counterexample: on `dataIdle` every external handle is dropped (strong
count is 1) and no transmission is pending, yet the driver's poll returns
`Pending` — with the state unchanged, so every subsequent poll also returns
`Pending` — never the terminal `Ready(Ok)`.  The strong-count check sits only
in the new-connection branch of the source (lines 297-303); the `Pending`
branch of `drive_receive` (lines 288-292) never checks it. -/
theorem poll_idle_stays_pending :
    dataIdle.strongCount = 1 ∧
    dataIdle.inner.pending = none ∧
    (unitOps.poll_transmit dataIdle.inner.engine).2 = none ∧
    EndpointDriver.poll unitOps (unitMux Unit) dataIdle =
      some (dataIdle, [], Poll.pending) := ⟨rfl, rfl, rfl, by rfl⟩

/-- Accepting a connection never changes the endpoint's strong count. -/
theorem accept_muxer_preserves_counts (ops : EngineOps E) (d : EndpointData E)
    (connection : Connection) (handle : ConnectionHandle) :
    (EndpointDriver.accept_muxer ops d connection handle).1.strongCount =
      d.strongCount := by
  cases hna : d.new_connectionsReceiverAlive <;>
    simp [EndpointDriver.accept_muxer, create_muxer,
      EndpointData.unbounded_send, hna]

/-- C1 amended: the driver's poll reaches its terminal success state exactly
when the strong count is 1 AND this poll accepted a new inbound connection
and then flushed the transmit queue to completion.  The reference-count check
after flushing is thus the sole successful-termination trigger, but it is
only reachable through the new-connection branch: a poll in which no new
connection arrives returns `Pending` even with every handle dropped and no
transmission pending (see the counterexample). -/
theorem poll_terminal_characterization (ops : EngineOps E) (mux : MuxerOps E)
    (d : EndpointData E) :
    (∃ d' tr, EndpointDriver.poll ops mux d = some (d', tr, Poll.ready ())) ↔
    (d.strongCount = 1 ∧
     ∃ inner1 tr1 inner2 sock2 tr2 handle conn,
       d.inner.drive_events ops mux = some (inner1, tr1) ∧
       inner1.drive_receive ops mux d.socketIncoming =
         some (inner2, sock2, tr2, Poll.ready (handle, conn)) ∧
       ((EndpointDriver.accept_muxer ops
           { d with inner := inner2, socketIncoming := sock2 } conn
           handle).1.inner.poll_transmit_pending ops
         (EndpointDriver.accept_muxer ops
           { d with inner := inner2, socketIncoming := sock2 } conn
           handle).1.socketSendCap).2.2 = Poll.ready ()) := by
  constructor
  · rintro ⟨d', tr, h⟩
    unfold EndpointDriver.poll at h
    cases hde : d.inner.drive_events ops mux with
    | none => simp [hde] at h
    | some out1 =>
      rcases out1 with ⟨inner1, tr1⟩
      simp only [hde] at h
      cases hdr : inner1.drive_receive ops mux d.socketIncoming with
      | none => simp [hdr] at h
      | some out2 =>
        rcases out2 with ⟨inner2, sock2, tr2, pr⟩
        cases pr with
        | pending =>
          simp only [hdr] at h
          rcases htp0 : EndpointInner.poll_transmit_pending ops inner2
              d.socketSendCap with ⟨inner3, cap3, r3⟩
          simp [htp0] at h
        | ready hc =>
          rcases hc with ⟨handle, conn⟩
          simp only [hdr] at h
          rcases hac : EndpointDriver.accept_muxer ops
              { d with inner := inner2, socketIncoming := sock2 } conn handle
            with ⟨d3, tr3⟩
          simp only [hac] at h
          rcases htp : d3.inner.poll_transmit_pending ops d3.socketSendCap
            with ⟨inner4, cap4, r4⟩
          simp only [htp] at h
          cases r4 with
          | pending => simp at h
          | ready u =>
            cases u
            simp only [] at h
            have hsc3 : d3.strongCount = d.strongCount := by
              have := accept_muxer_preserves_counts ops
                { d with inner := inner2, socketIncoming := sock2 } conn handle
              rw [hac] at this
              exact this
            by_cases hsc : d3.strongCount = 1
            · refine ⟨hsc3 ▸ hsc, inner1, tr1, inner2, sock2, tr2, handle,
                conn, rfl, hdr, ?_⟩
              simp only [hac]
              simp [htp]
            · rw [if_neg hsc] at h
              simp at h
  · rintro ⟨hsc, inner1, tr1, inner2, sock2, tr2, handle, conn, hde, hdr, htr⟩
    rcases hac : EndpointDriver.accept_muxer ops
        { d with inner := inner2, socketIncoming := sock2 } conn handle
      with ⟨d3, tr3⟩
    simp only [hac] at htr
    rcases htp : d3.inner.poll_transmit_pending ops d3.socketSendCap
      with ⟨inner4, cap4, r4⟩
    simp only [htp] at htr
    have hr4 : r4 = Poll.ready () := htr
    subst hr4
    have hsc3 : d3.strongCount = 1 := by
      have := accept_muxer_preserves_counts ops
        { d with inner := inner2, socketIncoming := sock2 } conn handle
      rw [hac] at this
      rw [this]
      exact hsc
    refine ⟨{ d3 with inner := inner4, socketSendCap := cap4 },
      tr1 ++ tr2 ++ tr3, ?_⟩
    unfold EndpointDriver.poll
    simp only [hde, hdr, hac, htp]
    rw [if_pos hsc3]

end QuicEndpoint
